import Mathlib

/-!
# gaigals/logger: a shallow embedding of `logger.go`

The Go package is embedded as pure Lean functions.  Everything the package
does to the outside world (writes to files and to the standard streams, calls
into the syslog writer, `os.Stat`, `os.OpenFile`, `syslog.New`) is recorded as
a list of `Event`s in the order the code performs them; everything the outside
world answers (the clock, the file system, the syslog daemon) is an input.
-/

namespace GoLogger

/-! ## `log/syslog` priorities -/

/-- Go `syslog.Priority` (`type Priority int`). -/
abbrev Priority := Int

abbrev LOG_EMERG : Priority := 0
abbrev LOG_ALERT : Priority := 1
abbrev LOG_CRIT : Priority := 2
abbrev LOG_ERR : Priority := 3
abbrev LOG_WARNING : Priority := 4
abbrev LOG_NOTICE : Priority := 5
abbrev LOG_INFO : Priority := 6
abbrev LOG_DEBUG : Priority := 7

/-- Facility `LOG_USER` (`1 << 3`). -/
abbrev LOG_USER : Priority := 8
/-- Facility `LOG_SYSLOG` (`5 << 3`). -/
abbrev LOG_SYSLOG : Priority := 40

/-! ## The fragment of package `fmt` the logger relies on

Operands of a variadic `...any` parameter are strings, ints and bools.
`Sprint` follows `fmt.Sprint` (`doPrint`).  `Sprintf` follows `fmt.Sprintf`
(`doPrintf`) for formats built from literal text, `%%`, and directives
`%[-][width]verb` with the verbs `v`, `d`, `s`, `t`, including the error
renderings `%!verb(type=value)`, `%!verb(MISSING)`, `%!(NOVERB)` and
`%!(EXTRA ...)`.  The flags `+`, `#`, `0`, space, precisions, `*` and argument
indexes are not modelled: their characters are read as verbs.
-/

/-- An operand passed through `...any`. -/
inductive Any
  | str (s : String)
  | int (n : Int)
  | bool (b : Bool)
  deriving DecidableEq, Repr

/-- The operand has kind `reflect.String`. -/
def Any.isString : Any → Bool
  | .str _ => true
  | _ => false

/-- Result of `reflect.TypeOf(arg).String()`. -/
def Any.typeName : Any → String
  | .str _ => "string"
  | .int _ => "int"
  | .bool _ => "bool"

/-- The default (`%v`) text of an operand, without padding. -/
def Any.text : Any → String
  | .str s => s
  | .int n => toString n
  | .bool b => if b then "true" else "false"

/-- The part of `fmt.fmt` (`fmtFlags`, `wid`) that the modelled directives set. -/
structure FmtFlags where
  minus : Bool
  widPresent : Bool
  wid : Nat
  deriving DecidableEq, Repr

/-- State after `clearflags`. -/
def FmtFlags.clear : FmtFlags := ⟨false, false, 0⟩

/-- The bytes `writePadding n` appends: `n` spaces (nothing when `n ≤ 0`). -/
def writePadding (n : Nat) : List Char := List.replicate n ' '

/-- Go `(*fmt).padString`: pad `s` with spaces to `wid` runes, on the left, or
on the right under the `-` flag; never truncates. -/
def padString (f : FmtFlags) (s : List Char) : List Char :=
  if !f.widPresent || f.wid == 0 then s
  else if !f.minus then writePadding (f.wid - s.length) ++ s
  else s ++ writePadding (f.wid - s.length)

/-- Go `printArg(arg, 'v')` for the modelled operand kinds. -/
def printV (f : FmtFlags) (arg : Any) : List Char := padString f arg.text.data

/-- Go `(*pp).badVerb`: `%!verb(type=value)`, the value printed with `%v`
under the flags still in force. -/
def badVerb (f : FmtFlags) (arg : Any) (verb : Char) : List Char :=
  "%!".data ++ [verb] ++ "(".data ++ arg.typeName.data ++ "=".data ++ printV f arg ++ ")".data

/-- Go `(*pp).printArg` for the modelled operand kinds and verbs. -/
def printArg (f : FmtFlags) (arg : Any) (verb : Char) : List Char :=
  match arg with
  | .bool _ => if verb = 't' ∨ verb = 'v' then printV f arg else badVerb f arg verb
  | .int _ => if verb = 'v' ∨ verb = 'd' then printV f arg else badVerb f arg verb
  | .str _ => if verb = 'v' ∨ verb = 's' then printV f arg else badVerb f arg verb

/-- The tail of `doPrintf`: `%!(EXTRA type=value, ...)` when operands are left over. -/
def extraArgs : List Any → List Char
  | [] => []
  | a :: rest =>
    "%!(EXTRA ".data
      ++ (", ".data).intercalate ((a :: rest).map fun x => x.typeName.data ++ "=".data ++ printV FmtFlags.clear x)
      ++ ")".data

/-- Where `doPrintf` stands inside the format string. -/
inductive Scan
  | text
  | flags (minus : Bool)
  | width (minus : Bool) (num : Nat)
  deriving DecidableEq, Repr

/-- Go `doPrintf` after the directive has been read up to its verb. -/
def applyVerb (f : FmtFlags) (verb : Char) (args : List Any) : List Char × List Any :=
  if verb = '%' then ("%".data, args)
  else
    match args with
    | [] => ("%!".data ++ [verb] ++ "(MISSING)".data, [])
    | a :: rest => (printArg f a verb, rest)

/-- Go `(*pp).doPrintf` as one pass over the format; operands are consumed in order. -/
def doPrintf : Scan → List Char → List Any → List Char
  | .text, [], args => extraArgs args
  | _, [], args => "%!(NOVERB)".data ++ extraArgs args
  | .text, c :: cs, args =>
    if c = '%' then doPrintf (.flags false) cs args else c :: doPrintf .text cs args
  | .flags m, c :: cs, args =>
    if c = '-' then doPrintf (.flags true) cs args
    else if '1' ≤ c ∧ c ≤ '9' then doPrintf (.width m (c.toNat - '0'.toNat)) cs args
    else
      let r := applyVerb ⟨m, false, 0⟩ c args
      r.1 ++ doPrintf .text cs r.2
  | .width m n, c :: cs, args =>
    if '0' ≤ c ∧ c ≤ '9' then
      if n > 1000000 then "%!(NOVERB)".data ++ extraArgs args
      else doPrintf (.width m (n * 10 + (c.toNat - '0'.toNat))) cs args
    else
      let r := applyVerb ⟨m, true, n⟩ c args
      r.1 ++ doPrintf .text cs r.2

/-- Go `fmt.Sprintf(format, a...)`. -/
def Sprintf (format : String) (a : List Any) : String :=
  String.mk (doPrintf .text format.data a)

/-- Go `(*pp).doPrint`: a space goes between two operands when neither is a string. -/
def doPrint : Bool → Bool → List Any → List Char
  | _, _, [] => []
  | first, prevString, arg :: rest =>
    (if !first && !arg.isString && !prevString then [' '] else [])
      ++ arg.text.data ++ doPrint false arg.isString rest

/-- Go `fmt.Sprint(a...)`. -/
def Sprint (a : List Any) : String := String.mk (doPrint true false a)

/-! ## Level labels and the default formatter -/

/-- Go `LogLevelToString`. -/
def LogLevelToString (level : Priority) : String :=
  if level = LOG_EMERG then "EMERG"
  else if level = LOG_ALERT then "ALERT"
  else if level = LOG_CRIT then "CRIT"
  else if level = LOG_ERR then "ERROR"
  else if level = LOG_WARNING then "WARNING"
  else if level = LOG_NOTICE then "NOTICE"
  else if level = LOG_INFO then "INFO"
  else if level = LOG_DEBUG then "DEBUG"
  else "UNKNOWN"

/-- The two clock reads of `formatLog`: `zone` is the result of
`time.Now().Format("MST")`, `stamp` the result of the second read,
`time.Now().Format("02/01/2006 15:04:05.000")`. -/
structure Clock where
  zone : String
  stamp : String
  deriving DecidableEq, Repr

/-- Go `formatLog`, the clock reads given by `clk`. -/
def formatLog (clk : Clock) (level : Priority) (msg : String) (args : List Any) : String :=
  let msg := if args.length > 0 then Sprintf msg args else msg
  Sprintf "%-7s | %s | %s | %s"
    [.str (LogLevelToString level), .str clk.zone, .str clk.stamp, .str msg]

/-! ## Files, the syslog writer, and the observable events -/

/-- A Go `*os.File`: one of the two standard streams or a file opened by name. -/
inductive File
  | Stdout
  | Stderr
  | named (name : String)
  deriving DecidableEq, Repr

/-- A Go `*syslog.Writer`, as returned by `syslog.New(priority, tag)`. -/
structure SyslogWriter where
  priority : Priority
  tag : String
  deriving DecidableEq, Repr

/-- The eight severity methods of `*syslog.Writer`. -/
inductive SyslogMethod
  | Debug | Info | Warning | Notice | Alert | Err | Crit | Emerg
  deriving DecidableEq, Repr

/-- Flags handed to `os.OpenFile`. -/
inductive OpenFlag
  | O_WRONLY | O_CREATE | O_APPEND
  deriving DecidableEq, Repr

/-- One interaction of the package with the outside world. -/
inductive Event
  /-- A write of `data` to `w`; `failed` tells whether the write returned an error. -/
  | write (w : File) (data : String) (failed : Bool)
  /-- A call of severity method `m` of writer `w` with message `msg`. -/
  | syslog (w : SyslogWriter) (m : SyslogMethod) (msg : String)
  /-- A call `os.Stat(name)`. -/
  | stat (name : String)
  /-- A call `os.OpenFile(name, flag, perm)`. -/
  | openFile (name : String) (flag : List OpenFlag) (perm : Nat)
  /-- A call `syslog.New(priority, tag)`. -/
  | syslogNew (priority : Priority) (tag : String)
  deriving DecidableEq, Repr

/-- What a dispatch call reads from the outside world: the clock, and whether
a given write fails. -/
structure Env where
  clock : Clock
  writeFails : File → String → Bool

/-- Go `fmt.Fprintln(w, msg)` with one string operand; the result is discarded
by every caller in the package. -/
def Fprintln (env : Env) (w : File) (msg : String) : Event :=
  .write w (msg ++ "\n") (env.writeFails w (msg ++ "\n"))

/-- What a call did: the events it performed, in order, and whether it ended
in a run-time panic (a call through a nil function value). -/
structure Outcome where
  events : List Event
  panicked : Bool
  deriving DecidableEq, Repr

/-! ## The Logger -/

/-- Type of the `formatter` field; the clock is an explicit argument. -/
abbrev Formatter := Clock → Priority → String → List Any → String

/-- Go `Logger`; a nil pointer or nil func is `none`. -/
structure Logger where
  syslogWriter : Option SyslogWriter
  fileWriter : Option File
  formatter : Option Formatter
  useStdBackupWritter : Bool

/-- The zero value of `Logger`, the initial value of the package variable `logger`. -/
def Logger.zero : Logger := ⟨none, none, none, false⟩

/-- Go `(*Logger).writeToSyslog`. -/
def Logger.writeToSyslog (logger : Logger) (level : Priority) (msg : String) : List Event :=
  match logger.syslogWriter with
  | none => []
  | some w =>
    if level = LOG_DEBUG then [.syslog w .Debug msg]
    else if level = LOG_INFO then [.syslog w .Info msg]
    else if level = LOG_WARNING then [.syslog w .Warning msg]
    else if level = LOG_NOTICE then [.syslog w .Notice msg]
    else if level = LOG_ALERT then [.syslog w .Alert msg]
    else if level = LOG_ERR then [.syslog w .Err msg]
    else if level = LOG_CRIT then [.syslog w .Crit msg]
    else if level = LOG_EMERG then [.syslog w .Emerg msg]
    else [.syslog w .Info msg]

/-- Go `(*Logger).printLog`. -/
def Logger.printLog (logger : Logger) (env : Env) (applyFormating : Bool)
    (level : Priority) (osFile : File) (s : List Any) : Outcome :=
  let msg := Sprint s
  let formatted : Option String :=
    if applyFormating then
      match logger.formatter with
      | none => none
      | some formatter => some (formatter env.clock level msg [])
    else some msg
  match formatted with
  | none => ⟨[], true⟩
  | some msg =>
    let toFile :=
      match logger.fileWriter with
      | some fileWriter => [Fprintln env fileWriter msg]
      | none => []
    ⟨toFile ++ [Fprintln env osFile msg] ++ logger.writeToSyslog level msg, false⟩

/-- Go `(*Logger).printLogf`. -/
def Logger.printLogf (logger : Logger) (env : Env) (applyFormating : Bool)
    (level : Priority) (osFile : File) (msg : String) (args : List Any) : Outcome :=
  let formatted : Option String :=
    if applyFormating then
      match logger.formatter with
      | none => none
      | some formatter => some (formatter env.clock level msg args)
    else some (Sprintf msg args)
  match formatted with
  | none => ⟨[], true⟩
  | some msg =>
    let toFile :=
      match logger.fileWriter with
      | some fileWriter => [Fprintln env fileWriter msg]
      | none => []
    ⟨toFile ++ [Fprintln env osFile msg] ++ logger.writeToSyslog level msg, false⟩

/-! ### The eighteen methods -/

def Logger.Printf (logger : Logger) (env : Env) (format : String) (args : List Any) : Outcome :=
  logger.printLogf env false LOG_INFO .Stdout format args

def Logger.Println (logger : Logger) (env : Env) (s : List Any) : Outcome :=
  logger.printLog env false LOG_INFO .Stdout s

def Logger.Info (logger : Logger) (env : Env) (s : List Any) : Outcome :=
  logger.printLog env true LOG_INFO .Stdout s

def Logger.Infof (logger : Logger) (env : Env) (format : String) (args : List Any) : Outcome :=
  logger.printLogf env true LOG_INFO .Stdout format args

def Logger.Debug (logger : Logger) (env : Env) (s : List Any) : Outcome :=
  logger.printLog env true LOG_DEBUG .Stdout s

def Logger.Debugf (logger : Logger) (env : Env) (format : String) (args : List Any) : Outcome :=
  logger.printLogf env true LOG_DEBUG .Stdout format args

def Logger.Warn (logger : Logger) (env : Env) (s : List Any) : Outcome :=
  logger.printLog env true LOG_WARNING .Stdout s

def Logger.Warnf (logger : Logger) (env : Env) (format : String) (args : List Any) : Outcome :=
  logger.printLogf env true LOG_WARNING .Stdout format args

def Logger.Alert (logger : Logger) (env : Env) (s : List Any) : Outcome :=
  logger.printLog env true LOG_ALERT .Stdout s

def Logger.Alertf (logger : Logger) (env : Env) (format : String) (args : List Any) : Outcome :=
  logger.printLogf env true LOG_ALERT .Stdout format args

def Logger.Notice (logger : Logger) (env : Env) (s : List Any) : Outcome :=
  logger.printLog env true LOG_NOTICE .Stdout s

def Logger.Noticef (logger : Logger) (env : Env) (format : String) (args : List Any) : Outcome :=
  logger.printLogf env true LOG_NOTICE .Stdout format args

def Logger.Error (logger : Logger) (env : Env) (s : List Any) : Outcome :=
  logger.printLog env true LOG_ERR .Stderr s

def Logger.Errorf (logger : Logger) (env : Env) (format : String) (args : List Any) : Outcome :=
  logger.printLogf env true LOG_ERR .Stderr format args

def Logger.Critical (logger : Logger) (env : Env) (s : List Any) : Outcome :=
  logger.printLog env true LOG_CRIT .Stderr s

def Logger.Criticalf (logger : Logger) (env : Env) (format : String) (args : List Any) : Outcome :=
  logger.printLogf env true LOG_CRIT .Stderr format args

def Logger.Emergency (logger : Logger) (env : Env) (s : List Any) : Outcome :=
  logger.printLog env true LOG_EMERG .Stderr s

def Logger.Emergancyf (logger : Logger) (env : Env) (format : String) (args : List Any) : Outcome :=
  logger.printLogf env true LOG_EMERG .Stderr format args

/-! ## Construction -/

/-- An error value produced outside the package (`os.Stat`, `os.OpenFile`,
`syslog.New`): its `Error()` text and the answer of `os.IsNotExist`. -/
structure OSError where
  msg : String
  notExist : Bool
  deriving DecidableEq, Repr

/-- Result of a successful `os.Stat`: the answer of `info.IsDir()`. -/
structure FileInfo where
  isDir : Bool
  deriving DecidableEq, Repr

/-- The outside world as seen by the constructors. -/
structure OS where
  /-- Go `filepath.Dir`. -/
  Dir : String → String
  /-- Go `os.Stat`. -/
  Stat : String → Except OSError FileInfo
  /-- Go `os.OpenFile`. -/
  OpenFile : String → List OpenFlag → Nat → Except OSError File
  /-- Go `syslog.New`. -/
  syslogNew : Priority → String → Except OSError SyslogWriter

/-- An error an error of the package can wrap (`%w`). -/
inductive Cause
  /-- The package variable `ErrSyslogConnFailed`. -/
  | ErrSyslogConnFailed
  /-- An error produced outside the package. -/
  | os (e : OSError)
  deriving DecidableEq, Repr

/-- An error returned by the package: its text and the errors it wraps. -/
structure GoError where
  msg : String
  wraps : List Cause
  deriving DecidableEq, Repr

/-- Go `checkFileDir`: the returned error (`none` for nil) and the events. -/
def checkFileDir (os : OS) (filePath : String) : Option GoError × List Event :=
  let parentDir := os.Dir filePath
  match os.Stat parentDir with
  | .ok info =>
    if !info.isDir then
      (some ⟨"the path=" ++ parentDir ++ " exists but is not directory", []⟩, [.stat parentDir])
    else (none, [.stat parentDir])
  | .error err =>
    if err.notExist then
      (some ⟨"log file dir=" ++ parentDir ++ " does not exist", []⟩, [.stat parentDir])
    else
      (some ⟨"log file dir=" ++ parentDir ++ " stat error: " ++ err.msg, [.os err]⟩,
        [.stat parentDir])

/-- Go `(*Logger).openLogFile`: the returned error, the receiver afterwards,
and the events. -/
def Logger.openLogFile (logger : Logger) (os : OS) (filePath : String) :
    Option GoError × Logger × List Event :=
  if filePath = "" then (none, logger, [])
  else
    match checkFileDir os filePath with
    | (some err, evs) => (some err, logger, evs)
    | (none, evs) =>
      let flag := [OpenFlag.O_WRONLY, OpenFlag.O_CREATE, OpenFlag.O_APPEND]
      match os.OpenFile filePath flag 0o644 with
      | .ok f =>
        (none, { logger with fileWriter := some f }, evs ++ [.openFile filePath flag 0o644])
      | .error err =>
        (some ⟨"log file=" ++ filePath ++ " open error: " ++ err.msg, [.os err]⟩,
          { logger with fileWriter := none }, evs ++ [.openFile filePath flag 0o644])

/-- Go `newSyslog`. -/
def newSyslog (os : OS) (appName : String) (flags : Priority) :
    Except OSError SyslogWriter × List Event :=
  let flags := if flags = 0 then Int.lor LOG_INFO LOG_SYSLOG else flags
  (os.syslogNew flags appName, [.syslogNew flags appName])

/-- Go `newSysLogger`. -/
def newSysLogger (os : OS) (appName : String) (flags : Priority) :
    Except GoError SyslogWriter × List Event :=
  match newSyslog os appName flags with
  | (.error err, evs) =>
    (.error ⟨"new syslog setup error" ++ ": " ++ err.msg, [.ErrSyslogConnFailed, .os err]⟩, evs)
  | (.ok slog, evs) => (.ok slog, evs)

/-- Go `newLogger`: `.error err` stands for `(nil, err)`, `.ok l` for `(&l, nil)`. -/
def newLogger (os : OS) (appName logFilePath : String) (enableSyslog : Bool)
    (flags : Priority) : Except GoError Logger × List Event :=
  let dialed : Except GoError (Option SyslogWriter) × List Event :=
    if enableSyslog then
      match newSysLogger os appName flags with
      | (.error err, evs) => (.error err, evs)
      | (.ok w, evs) => (.ok (some w), evs)
    else (.ok none, [])
  match dialed with
  | (.error err, evs) => (.error err, evs)
  | (.ok syslogWriter, evs) =>
    let l : Logger :=
      { syslogWriter := syslogWriter, fileWriter := none, formatter := some formatLog,
        useStdBackupWritter := false }
    match l.openLogFile os logFilePath with
    | (some err, _, evs2) => (.error err, evs ++ evs2)
    | (none, l, evs2) => (.ok l, evs ++ evs2)

/-- Go `NewLogger`. -/
def NewLogger (os : OS) (appName logFilePath : String) (enableSyslog : Bool)
    (flags : Priority) : Except GoError Logger × List Event :=
  match newLogger os appName logFilePath enableSyslog flags with
  | (.error err, evs) => (.error err, evs)
  | (.ok l, evs) => (.ok l, evs)

/-- Go `NewGlobalLogger`: the returned error, the value of the package
variable `logger` afterwards (`global` is its value before), and the events. -/
def NewGlobalLogger (os : OS) (global : Logger) (appName logFilePath : String)
    (enableSyslog : Bool) (flags : Priority) : Option GoError × Logger × List Event :=
  match newLogger os appName logFilePath enableSyslog flags with
  | (.error err, evs) => (some err, global, evs)
  | (.ok l, evs) => (none, l, evs)

/-- How an `OrFatal` constructor ends: `os.Exit(code)` or a normal return. -/
inductive Fatal (α : Type)
  | exit (code : Nat)
  | ret (a : α)

/-- Go `NewLoggerOrFatal`. -/
def NewLoggerOrFatal (os : OS) (env : Env) (appName logFilePath : String)
    (enableSyslog : Bool) (flags : Priority) : Fatal Logger × List Event :=
  match NewLogger os appName logFilePath enableSyslog flags with
  | (.error err, evs) => (.exit 1, evs ++ [Fprintln env .Stderr err.msg])
  | (.ok l, evs) => (.ret l, evs)

/-- Go `NewGlobalLoggerOrFatal`; on return the component is the new value of
the package variable `logger`. -/
def NewGlobalLoggerOrFatal (os : OS) (env : Env) (appName logFilePath : String)
    (enableSyslog : Bool) (flags : Priority) : Fatal Logger × List Event :=
  match newLogger os appName logFilePath enableSyslog flags with
  | (.error err, evs) => (.exit 1, evs ++ [Fprintln env .Stderr err.msg])
  | (.ok l, evs) => (.ret l, evs)

/-! ## The package-level functions

Each takes the current value of the package variable `logger` as `global`. -/

def Printf (global : Logger) (env : Env) (format : String) (args : List Any) : Outcome :=
  global.printLogf env false LOG_INFO .Stdout format args

def Println (global : Logger) (env : Env) (s : List Any) : Outcome :=
  global.printLog env false LOG_INFO .Stdout s

def Info (global : Logger) (env : Env) (s : List Any) : Outcome :=
  global.Info env s

def Infof (global : Logger) (env : Env) (format : String) (args : List Any) : Outcome :=
  global.Infof env format args

def Debug (global : Logger) (env : Env) (s : List Any) : Outcome :=
  global.Debug env s

def Debugf (global : Logger) (env : Env) (format : String) (args : List Any) : Outcome :=
  global.Debugf env format args

def Warn (global : Logger) (env : Env) (s : List Any) : Outcome :=
  global.Warn env s

def Warnf (global : Logger) (env : Env) (format : String) (args : List Any) : Outcome :=
  global.Warnf env format args

def Alert (global : Logger) (env : Env) (s : List Any) : Outcome :=
  global.Alert env s

def Alertf (global : Logger) (env : Env) (format : String) (args : List Any) : Outcome :=
  global.Alertf env format args

def Notice (global : Logger) (env : Env) (s : List Any) : Outcome :=
  global.Notice env s

def Noticef (global : Logger) (env : Env) (format : String) (args : List Any) : Outcome :=
  global.Noticef env format args

def Error (global : Logger) (env : Env) (s : List Any) : Outcome :=
  global.Error env s

def Errorf (global : Logger) (env : Env) (format : String) (args : List Any) : Outcome :=
  global.Errorf env format args

def Critical (global : Logger) (env : Env) (s : List Any) : Outcome :=
  global.Critical env s

def Criticalf (global : Logger) (env : Env) (format : String) (args : List Any) : Outcome :=
  global.Criticalf env format args

def Emergency (global : Logger) (env : Env) (s : List Any) : Outcome :=
  global.Emergency env s

def Emergancyf (global : Logger) (env : Env) (format : String) (args : List Any) : Outcome :=
  global.Emergancyf env format args

/-! ## Entry points as data

The eighteen methods, and the eighteen package-level functions, gathered so
that a statement can range over all of them. -/

/-- The eight severities that have a pair of entry points. -/
inductive Severity
  | Info | Debug | Warn | Alert | Notice | Error | Critical | Emergency
  deriving DecidableEq, Repr

/-- A call of an entry point with its arguments: the raw forms, the variadic
form of a severity, or its template (`f`) form. -/
inductive Call
  | Printf (format : String) (args : List Any)
  | Println (s : List Any)
  | plain (sev : Severity) (s : List Any)
  | templ (sev : Severity) (format : String) (args : List Any)
  deriving DecidableEq, Repr

/-- The method of `Logger` a call names. -/
def Logger.invoke (logger : Logger) (env : Env) : Call → Outcome
  | .Printf format args => logger.Printf env format args
  | .Println s => logger.Println env s
  | .plain .Info s => logger.Info env s
  | .plain .Debug s => logger.Debug env s
  | .plain .Warn s => logger.Warn env s
  | .plain .Alert s => logger.Alert env s
  | .plain .Notice s => logger.Notice env s
  | .plain .Error s => logger.Error env s
  | .plain .Critical s => logger.Critical env s
  | .plain .Emergency s => logger.Emergency env s
  | .templ .Info format args => logger.Infof env format args
  | .templ .Debug format args => logger.Debugf env format args
  | .templ .Warn format args => logger.Warnf env format args
  | .templ .Alert format args => logger.Alertf env format args
  | .templ .Notice format args => logger.Noticef env format args
  | .templ .Error format args => logger.Errorf env format args
  | .templ .Critical format args => logger.Criticalf env format args
  | .templ .Emergency format args => logger.Emergancyf env format args

/-- The package-level function a call names. -/
def invoke (global : Logger) (env : Env) : Call → Outcome
  | .Printf format args => Printf global env format args
  | .Println s => Println global env s
  | .plain .Info s => Info global env s
  | .plain .Debug s => Debug global env s
  | .plain .Warn s => Warn global env s
  | .plain .Alert s => Alert global env s
  | .plain .Notice s => Notice global env s
  | .plain .Error s => Error global env s
  | .plain .Critical s => Critical global env s
  | .plain .Emergency s => Emergency global env s
  | .templ .Info format args => Infof global env format args
  | .templ .Debug format args => Debugf global env format args
  | .templ .Warn format args => Warnf global env format args
  | .templ .Alert format args => Alertf global env format args
  | .templ .Notice format args => Noticef global env format args
  | .templ .Error format args => Errorf global env format args
  | .templ .Critical format args => Criticalf global env format args
  | .templ .Emergency format args => Emergancyf global env format args

/-- The remote method the specification assigns to a call: the method of the
call's own severity, `Info` for the raw forms. -/
def Call.ownMethod : Call → SyslogMethod
  | .Printf _ _ => .Info
  | .Println _ => .Info
  | .plain sev _ | .templ sev _ _ =>
    match sev with
    | .Info => .Info
    | .Debug => .Debug
    | .Warn => .Warning
    | .Alert => .Alert
    | .Notice => .Notice
    | .Error => .Err
    | .Critical => .Crit
    | .Emergency => .Emerg

/-- The remote methods called by a list of events, in order. -/
def syslogCalls : List Event → List SyslogMethod
  | [] => []
  | .syslog _ m _ :: rest => m :: syslogCalls rest
  | _ :: rest => syslogCalls rest

/-- The concatenation of the default texts of the operands, nothing in between. -/
def concatValues (s : List Any) : String :=
  String.mk (s.map fun a => a.text.data).flatten

/-- The primary stream the level table of the specification assigns to a call:
stdout for the raw forms and for Info, Notice, Warning, Debug; stderr for
Error, Critical, Alert, Emergency. -/
def Call.claimedStream : Call → File
  | .Printf _ _ => .Stdout
  | .Println _ => .Stdout
  | .plain sev _ | .templ sev _ _ =>
    match sev with
    | .Info | .Notice | .Warn | .Debug => .Stdout
    | .Error | .Critical | .Alert | .Emergency => .Stderr

/-- The level table with `Alert` moved to stdout: stdout for the raw forms and
for Info, Notice, Warning, Debug, Alert; stderr for Error, Critical,
Emergency. -/
def Call.amendedStream : Call → File
  | .Printf _ _ => .Stdout
  | .Println _ => .Stdout
  | .plain sev _ | .templ sev _ _ =>
    match sev with
    | .Info | .Notice | .Warn | .Debug | .Alert => .Stdout
    | .Error | .Critical | .Emergency => .Stderr

/-- The call is one of the raw forms `Printf`, `Println`. -/
def Call.isRaw : Call → Bool
  | .Printf _ _ => true
  | .Println _ => true
  | _ => false

/-- The file an event writes to, if it is a write. -/
def Event.target : Event → Option File
  | .write w _ _ => some w
  | _ => none

/-! ## Concrete inputs used to exercise the statements -/

/-- A clock stopped at midnight UTC, 1 January 2024. -/
def clock0 : Clock := ⟨"UTC", "01/01/2024 00:00:00.000"⟩

/-- An environment in which every write succeeds. -/
def env0 : Env := ⟨clock0, fun _ _ => false⟩

/-- An environment in which every write fails. -/
def envFail : Env := ⟨clock0, fun _ _ => true⟩

/-- A Logger with both sinks attached and the default formatter. -/
def bothSinks : Logger :=
  ⟨some ⟨14, "svc"⟩, some (.named "/tmp/t.log"), some formatLog, false⟩

/-- A world in which `/tmp` is a directory, `/missing` does not exist, `/etc/passwd`
is a regular file, `/locked` cannot be examined, and files open and syslog
connects. -/
def os0 : OS where
  Dir := fun p =>
    let d := (p.data.reverse.dropWhile (· ≠ '/')).reverse.dropLast
    if d = [] then (if p.data.head? = some '/' then "/" else ".") else String.mk d
  Stat := fun d =>
    if d = "/tmp" then .ok ⟨true⟩
    else if d = "/etc/passwd" then .ok ⟨false⟩
    else if d = "/locked" then .error ⟨"stat /locked: permission denied", false⟩
    else .error ⟨"stat " ++ d ++ ": no such file or directory", true⟩
  OpenFile := fun name _ _ => .ok (.named name)
  syslogNew := fun priority tag => .ok ⟨priority, tag⟩

/-! ## Auxiliary facts -/

theorem length_label_le (level : Priority) : (LogLevelToString level).length ≤ 7 := by
  unfold LogLevelToString
  split_ifs <;> decide

theorem Sprintf_line (a b c d : String) :
    Sprintf "%-7s | %s | %s | %s" [.str a, .str b, .str c, .str d] =
      (a ++ String.mk (List.replicate (7 - a.length) ' ')) ++ " | " ++ b ++ " | " ++ c
        ++ " | " ++ d := by
  apply String.ext
  simp [Sprintf, doPrintf, applyVerb, printArg, printV, padString, Any.text, extraArgs,
    writePadding]

theorem formatLog_eq (clk : Clock) (level : Priority) (msg : String) (args : List Any) :
    formatLog clk level msg args =
      (LogLevelToString level
          ++ String.mk (List.replicate (7 - (LogLevelToString level).length) ' '))
        ++ " | " ++ clk.zone ++ " | " ++ clk.stamp ++ " | "
        ++ (if args = [] then msg else Sprintf msg args) := by
  unfold formatLog
  rw [Sprintf_line]
  cases args <;> simp

theorem checkFileDir_bad (os : OS) (filePath : String)
    (hdir : (∃ e, os.Stat (os.Dir filePath) = .error e)
      ∨ os.Stat (os.Dir filePath) = .ok ⟨false⟩) :
    ∃ err, checkFileDir os filePath = (some err, [.stat (os.Dir filePath)])
      ∧ ∀ e, os.Stat (os.Dir filePath) = .error e → e.notExist = false →
          Cause.os e ∈ err.wraps := by
  rcases hdir with ⟨e, he⟩ | hok
  · by_cases hne : e.notExist = true
    · refine ⟨_, by simp [checkFileDir, he, hne]; rfl, ?_⟩
      intro e2 he2 hfalse
      rw [he] at he2
      cases he2
      simp [hne] at hfalse
    · refine ⟨_, by simp [checkFileDir, he, hne]; rfl, ?_⟩
      intro e2 he2 _
      rw [he] at he2
      cases he2
      simp
  · refine ⟨_, by simp [checkFileDir, hok]; rfl, ?_⟩
    intro e he
    rw [hok] at he
    cases he

theorem openLogFile_bad (logger : Logger) (os : OS) (filePath : String)
    (hpath : filePath ≠ "") (err : GoError) (evs : List Event)
    (h : checkFileDir os filePath = (some err, evs)) :
    logger.openLogFile os filePath = (some err, logger, evs) := by
  simp [Logger.openLogFile, hpath, h]

theorem openLogFile_formatter (logger : Logger) (os : OS) (filePath : String) :
    (logger.openLogFile os filePath).2.1.formatter = logger.formatter := by
  unfold Logger.openLogFile
  split_ifs
  · rfl
  · rcases hck : checkFileDir os filePath with ⟨_ | err, evs⟩
    · cases hopen : os.OpenFile filePath
          [OpenFlag.O_WRONLY, OpenFlag.O_CREATE, OpenFlag.O_APPEND] 0o644 <;> simp [hopen]
    · simp

theorem newLogger_after_dial (os : OS) (logFilePath : String) (sw : Option SyslogWriter)
    (evs evs1 : List Event) (l : Logger)
    (h : (match Logger.openLogFile ⟨sw, none, some formatLog, false⟩ os logFilePath with
        | (some err, _, evs2) => ((.error err : Except GoError Logger), evs1 ++ evs2)
        | (none, l, evs2) => (.ok l, evs1 ++ evs2)) = (.ok l, evs)) :
    l.formatter = some formatLog := by
  have hf := openLogFile_formatter ⟨sw, none, some formatLog, false⟩ os logFilePath
  rcases hopen : Logger.openLogFile ⟨sw, none, some formatLog, false⟩ os logFilePath with
    ⟨_ | err, l2, evs2⟩
  · rw [hopen] at h hf
    simp at h hf
    rw [← h.1]
    exact hf
  · rw [hopen] at h
    simp at h

theorem newLogger_formatter (os : OS) (appName logFilePath : String) (enableSyslog : Bool)
    (flags : Priority) (l : Logger) (evs : List Event)
    (h : newLogger os appName logFilePath enableSyslog flags = (.ok l, evs)) :
    l.formatter = some formatLog := by
  unfold newLogger at h
  cases enableSyslog
  · exact newLogger_after_dial os logFilePath none evs [] l (by simpa using h)
  · rcases hdial : newSysLogger os appName flags with ⟨_ | w, evs1⟩
    · rw [hdial] at h
      simp at h
    · rw [hdial] at h
      exact newLogger_after_dial os logFilePath (some w) evs evs1 l (by simpa using h)

theorem invoke_no_panic (l : Logger) (f : Formatter) (hf : l.formatter = some f) (env : Env)
    (c : Call) : (l.invoke env c).panicked = false := by
  cases c with
  | Printf format args => simp [Logger.invoke, Logger.Printf, Logger.printLogf]
  | Println s => simp [Logger.invoke, Logger.Println, Logger.printLog]
  | plain sev s =>
    cases sev <;> simp [Logger.invoke, Logger.Info, Logger.Debug, Logger.Warn,
      Logger.Alert, Logger.Notice, Logger.Error, Logger.Critical, Logger.Emergency,
      Logger.printLog, hf]
  | templ sev format args =>
    cases sev <;> simp [Logger.invoke, Logger.Infof, Logger.Debugf, Logger.Warnf,
      Logger.Alertf, Logger.Noticef, Logger.Errorf, Logger.Criticalf, Logger.Emergancyf,
      Logger.printLogf, hf]

theorem doPrint_strings (first prev : Bool) (ss : List String) :
    doPrint first prev (ss.map Any.str) = (ss.map fun x => x.data).flatten := by
  induction ss generalizing first prev with
  | nil => simp [doPrint]
  | cons x xs ih => simp [doPrint, Any.isString, Any.text, ih]

theorem writeToSyslog_target (logger : Logger) (level : Priority) (msg : String) :
    ∀ e ∈ logger.writeToSyslog level msg, e.target = none := by
  unfold Logger.writeToSyslog
  cases logger.syslogWriter with
  | none => simp
  | some w =>
    simp only
    split_ifs <;> simp [Event.target]

theorem printLog_shape (logger : Logger) (env : Env) (applyFormating : Bool)
    (level : Priority) (osFile : File) (s : List Any)
    (h : logger.formatter.isSome = true ∨ applyFormating = false) :
    ∃ (line : String) (rest : List Event),
      logger.printLog env applyFormating level osFile s =
          ⟨(logger.fileWriter.map fun f =>
                Event.write f (line ++ "\n") (env.writeFails f (line ++ "\n"))).toList
              ++ [.write osFile (line ++ "\n") (env.writeFails osFile (line ++ "\n"))]
              ++ rest, false⟩
        ∧ ∀ e ∈ rest, e.target = none := by
  cases applyFormating
  · refine ⟨Sprint s, logger.writeToSyslog level (Sprint s), ?_, writeToSyslog_target _ _ _⟩
    cases hfw : logger.fileWriter <;> simp [Logger.printLog, Fprintln, hfw]
  · cases hf : logger.formatter with
    | none => simp [hf] at h
    | some f =>
      refine ⟨f env.clock level (Sprint s) [],
        logger.writeToSyslog level (f env.clock level (Sprint s) []), ?_,
        writeToSyslog_target _ _ _⟩
      cases hfw : logger.fileWriter <;> simp [Logger.printLog, Fprintln, hfw, hf]

theorem printLogf_shape (logger : Logger) (env : Env) (applyFormating : Bool)
    (level : Priority) (osFile : File) (msg : String) (args : List Any)
    (h : logger.formatter.isSome = true ∨ applyFormating = false) :
    ∃ (line : String) (rest : List Event),
      logger.printLogf env applyFormating level osFile msg args =
          ⟨(logger.fileWriter.map fun f =>
                Event.write f (line ++ "\n") (env.writeFails f (line ++ "\n"))).toList
              ++ [.write osFile (line ++ "\n") (env.writeFails osFile (line ++ "\n"))]
              ++ rest, false⟩
        ∧ ∀ e ∈ rest, e.target = none := by
  cases applyFormating
  · refine ⟨Sprintf msg args, logger.writeToSyslog level (Sprintf msg args), ?_,
      writeToSyslog_target _ _ _⟩
    cases hfw : logger.fileWriter <;> simp [Logger.printLogf, Fprintln, hfw]
  · cases hf : logger.formatter with
    | none => simp [hf] at h
    | some f =>
      refine ⟨f env.clock level msg args,
        logger.writeToSyslog level (f env.clock level msg args), ?_,
        writeToSyslog_target _ _ _⟩
      cases hfw : logger.fileWriter <;> simp [Logger.printLogf, Fprintln, hfw, hf]

/-! ## C4: level labels -/

/-- C4. `LogLevelToString` is total: the eight severities give EMERG, ALERT,
CRIT, ERROR, WARNING, NOTICE, INFO, DEBUG; every other priority value gives
UNKNOWN; and every label returned has between 4 and 8 characters, all of them
upper-case letters. -/
theorem LogLevelToString_table :
    LogLevelToString LOG_EMERG = "EMERG" ∧ LogLevelToString LOG_ALERT = "ALERT"
      ∧ LogLevelToString LOG_CRIT = "CRIT" ∧ LogLevelToString LOG_ERR = "ERROR"
      ∧ LogLevelToString LOG_WARNING = "WARNING" ∧ LogLevelToString LOG_NOTICE = "NOTICE"
      ∧ LogLevelToString LOG_INFO = "INFO" ∧ LogLevelToString LOG_DEBUG = "DEBUG"
      ∧ (∀ level : Priority, (0 ≤ level ∧ level ≤ 7) ∨ LogLevelToString level = "UNKNOWN")
      ∧ (∀ level : Priority, 4 ≤ (LogLevelToString level).length
          ∧ (LogLevelToString level).length ≤ 8
          ∧ (LogLevelToString level).data.all Char.isUpper = true) := by
  refine ⟨by decide, by decide, by decide, by decide, by decide, by decide, by decide,
    by decide, ?_, ?_⟩
  · intro level
    by_cases h : 0 ≤ level ∧ level ≤ 7
    · exact Or.inl h
    · right
      unfold LogLevelToString
      split_ifs <;> first | rfl | (subst_vars; exact absurd (by decide) h)
  · intro level
    unfold LogLevelToString
    split_ifs <;> decide

/-! ## C5: the default formatter -/

/-- C5. With the clock reads as inputs, `formatLog` returns the level field,
the zone abbreviation, the time stamp and the message joined by `" | "`; the
level field is the label followed by spaces only and is exactly 7 characters
long; the message is the interpolated template when there are arguments and
the template itself, unchanged, when there are none. -/
theorem formatLog_line (clk : Clock) (level : Priority) (msg : String) (args : List Any) :
    ∃ levelField pad : String,
      levelField = LogLevelToString level ++ pad
        ∧ (∀ c ∈ pad.data, c = ' ')
        ∧ levelField.length = 7
        ∧ formatLog clk level msg args =
            levelField ++ " | " ++ clk.zone ++ " | " ++ clk.stamp ++ " | "
              ++ (if args = [] then msg else Sprintf msg args) := by
  refine ⟨_, String.mk (List.replicate (7 - (LogLevelToString level).length) ' '), rfl, ?_, ?_,
    formatLog_eq clk level msg args⟩
  · intro c hc
    exact List.eq_of_mem_replicate hc
  · have h := length_label_le level
    simp [String.length_append]
    omega

/-! ## C1: the primary stream of each entry point -/

/-- C1, counterexample. `Alert("boom")` and `Alertf("boom")` on a Logger
without sinks write their line to stdout, while the level table of the claim
assigns stderr to them. -/
theorem Alert_writes_Stdout :
    (Logger.Alert ⟨none, none, some formatLog, false⟩ env0 [.str "boom"]).events
        = [.write .Stdout "ALERT   | UTC | 01/01/2024 00:00:00.000 | boom\n" false]
      ∧ (Logger.Alertf ⟨none, none, some formatLog, false⟩ env0 "boom" []).events
        = [.write .Stdout "ALERT   | UTC | 01/01/2024 00:00:00.000 | boom\n" false]
      ∧ Call.claimedStream (.plain .Alert [.str "boom"]) = .Stderr
      ∧ Call.claimedStream (.templ .Alert "boom" []) = .Stderr := by
  decide

/-- C1, amended. On a Logger whose formatter is set (for the raw forms: on
every Logger) each entry point writes one line to the durable sink if one is
attached, then the same line to its primary stream, then performs no further
write; the primary stream is stdout for `Printf`, `Println`, Info, Notice,
Warning, Debug and Alert, and stderr for Error, Critical and Emergency, in the
variadic and in the template form alike. -/
theorem entry_point_stream (logger : Logger) (env : Env) (c : Call)
    (h : logger.formatter.isSome = true ∨ c.isRaw = true) :
    ∃ (line : String) (rest : List Event),
      logger.invoke env c =
          ⟨(logger.fileWriter.map fun f =>
                Event.write f (line ++ "\n") (env.writeFails f (line ++ "\n"))).toList
              ++ [.write c.amendedStream (line ++ "\n")
                    (env.writeFails c.amendedStream (line ++ "\n"))]
              ++ rest, false⟩
        ∧ ∀ e ∈ rest, e.target = none := by
  cases c with
  | Printf format args => exact printLogf_shape logger env false LOG_INFO .Stdout _ _ (Or.inr rfl)
  | Println s => exact printLog_shape logger env false LOG_INFO .Stdout _ (Or.inr rfl)
  | plain sev s =>
    have hf : logger.formatter.isSome = true ∨ true = false := by
      rcases h with h | h
      · exact Or.inl h
      · simp [Call.isRaw] at h
    cases sev
    · exact printLog_shape logger env true LOG_INFO .Stdout _ hf
    · exact printLog_shape logger env true LOG_DEBUG .Stdout _ hf
    · exact printLog_shape logger env true LOG_WARNING .Stdout _ hf
    · exact printLog_shape logger env true LOG_ALERT .Stdout _ hf
    · exact printLog_shape logger env true LOG_NOTICE .Stdout _ hf
    · exact printLog_shape logger env true LOG_ERR .Stderr _ hf
    · exact printLog_shape logger env true LOG_CRIT .Stderr _ hf
    · exact printLog_shape logger env true LOG_EMERG .Stderr _ hf
  | templ sev format args =>
    have hf : logger.formatter.isSome = true ∨ true = false := by
      rcases h with h | h
      · exact Or.inl h
      · simp [Call.isRaw] at h
    cases sev
    · exact printLogf_shape logger env true LOG_INFO .Stdout _ _ hf
    · exact printLogf_shape logger env true LOG_DEBUG .Stdout _ _ hf
    · exact printLogf_shape logger env true LOG_WARNING .Stdout _ _ hf
    · exact printLogf_shape logger env true LOG_ALERT .Stdout _ _ hf
    · exact printLogf_shape logger env true LOG_NOTICE .Stdout _ _ hf
    · exact printLogf_shape logger env true LOG_ERR .Stderr _ _ hf
    · exact printLogf_shape logger env true LOG_CRIT .Stderr _ _ hf
    · exact printLogf_shape logger env true LOG_EMERG .Stderr _ _ hf

/-- Witness for C1, amended: `Critical("boom")` on a Logger with both sinks. -/
theorem entry_point_stream_witness :
    (bothSinks.formatter.isSome = true ∨ Call.isRaw (.plain .Critical [.str "boom"]) = true)
      ∧ ∃ (line : String) (rest : List Event),
        bothSinks.invoke env0 (.plain .Critical [.str "boom"]) =
            ⟨(bothSinks.fileWriter.map fun f =>
                  Event.write f (line ++ "\n") (env0.writeFails f (line ++ "\n"))).toList
                ++ [.write (Call.amendedStream (.plain .Critical [.str "boom"])) (line ++ "\n")
                      (env0.writeFails (Call.amendedStream (.plain .Critical [.str "boom"]))
                        (line ++ "\n"))]
                ++ rest, false⟩
          ∧ ∀ e ∈ rest, e.target = none :=
  ⟨Or.inl rfl, entry_point_stream bothSinks env0 (.plain .Critical [.str "boom"]) (Or.inl rfl)⟩

/-! ## C2: fan-out to three sinks -/

/-- C2. On a Logger with a durable sink, a remote sink and a formatter, one
call of `printLog` or `printLogf`, for every level, stream, message and
outcome of the writes, performs exactly three events in this order: the
rendered line plus newline written to the durable sink, the same written to
the primary stream, and one call of a remote method with the rendered line.
The second and third happen whether or not the first fails, and the call does
not panic. -/
theorem dispatch_three_sinks (logger : Logger) (fileWriter : File) (w : SyslogWriter)
    (formatter : Formatter) (hfile : logger.fileWriter = some fileWriter)
    (hsys : logger.syslogWriter = some w) (hfmt : logger.formatter = some formatter)
    (env : Env) (applyFormating : Bool) (level : Priority) (osFile : File)
    (s : List Any) (format : String) (args : List Any) :
    ∃ (m : SyslogMethod) (line linef : String),
      line = (if applyFormating then formatter env.clock level (Sprint s) [] else Sprint s)
      ∧ linef = (if applyFormating then formatter env.clock level format args
          else Sprintf format args)
      ∧ logger.printLog env applyFormating level osFile s =
          ⟨[.write fileWriter (line ++ "\n") (env.writeFails fileWriter (line ++ "\n")),
            .write osFile (line ++ "\n") (env.writeFails osFile (line ++ "\n")),
            .syslog w m line], false⟩
      ∧ logger.printLogf env applyFormating level osFile format args =
          ⟨[.write fileWriter (linef ++ "\n") (env.writeFails fileWriter (linef ++ "\n")),
            .write osFile (linef ++ "\n") (env.writeFails osFile (linef ++ "\n")),
            .syslog w m linef], false⟩ := by
  have hm : ∃ m : SyslogMethod, ∀ msg, logger.writeToSyslog level msg = [.syslog w m msg] := by
    unfold Logger.writeToSyslog
    rw [hsys]
    simp only
    split_ifs <;> exact ⟨_, fun _ => rfl⟩
  obtain ⟨m, hm⟩ := hm
  refine ⟨m, _, _, rfl, rfl, ?_, ?_⟩
  · cases applyFormating <;> simp [Logger.printLog, hfile, hfmt, hm, Fprintln]
  · cases applyFormating <;> simp [Logger.printLogf, hfile, hfmt, hm, Fprintln]

/-- Witness for C2: the statement at a Logger with both sinks attached, every
write failing, level Warning and stderr. -/
theorem dispatch_three_sinks_witness :
    ∃ (m : SyslogMethod) (line linef : String),
      line = (if true then formatLog envFail.clock LOG_WARNING (Sprint [.str "disk low"]) []
          else Sprint [.str "disk low"])
      ∧ linef = (if true then formatLog envFail.clock LOG_WARNING "n=%d" [.int 3]
          else Sprintf "n=%d" [.int 3])
      ∧ bothSinks.printLog envFail true LOG_WARNING .Stderr [.str "disk low"] =
          ⟨[.write (.named "/tmp/t.log") (line ++ "\n")
              (envFail.writeFails (.named "/tmp/t.log") (line ++ "\n")),
            .write .Stderr (line ++ "\n") (envFail.writeFails .Stderr (line ++ "\n")),
            .syslog ⟨14, "svc"⟩ m line], false⟩
      ∧ bothSinks.printLogf envFail true LOG_WARNING .Stderr "n=%d" [.int 3] =
          ⟨[.write (.named "/tmp/t.log") (linef ++ "\n")
              (envFail.writeFails (.named "/tmp/t.log") (linef ++ "\n")),
            .write .Stderr (linef ++ "\n") (envFail.writeFails .Stderr (linef ++ "\n")),
            .syslog ⟨14, "svc"⟩ m linef], false⟩ :=
  dispatch_three_sinks bothSinks (.named "/tmp/t.log") ⟨14, "svc"⟩ formatLog rfl rfl rfl
    envFail true LOG_WARNING .Stderr [.str "disk low"] "n=%d" [.int 3]

/-! ## C3: the remote method -/

/-- C3. On a Logger with a remote sink attached `writeToSyslog` performs
exactly one remote call, with the method of the severity: Debug, Info,
Warning, Notice, Err for Error, Crit for Critical, Emerg for Emergency, Alert,
and Info for every other priority value; without a remote sink it performs no
event.  Hence, on a Logger that also has a formatter, every entry point makes
exactly one remote call, with the method of its own severity, and the raw
forms call Info whether or not a formatter is set. -/
theorem writeToSyslog_method (logger : Logger) (w : SyslogWriter)
    (hsys : logger.syslogWriter = some w) (level : Priority) (msg : String) :
    logger.writeToSyslog LOG_DEBUG msg = [.syslog w .Debug msg]
      ∧ logger.writeToSyslog LOG_INFO msg = [.syslog w .Info msg]
      ∧ logger.writeToSyslog LOG_WARNING msg = [.syslog w .Warning msg]
      ∧ logger.writeToSyslog LOG_NOTICE msg = [.syslog w .Notice msg]
      ∧ logger.writeToSyslog LOG_ERR msg = [.syslog w .Err msg]
      ∧ logger.writeToSyslog LOG_CRIT msg = [.syslog w .Crit msg]
      ∧ logger.writeToSyslog LOG_EMERG msg = [.syslog w .Emerg msg]
      ∧ logger.writeToSyslog LOG_ALERT msg = [.syslog w .Alert msg]
      ∧ ((0 ≤ level ∧ level ≤ 7) ∨ logger.writeToSyslog level msg = [.syslog w .Info msg])
      ∧ (∃ m, logger.writeToSyslog level msg = [.syslog w m msg])
      ∧ Logger.writeToSyslog { logger with syslogWriter := none } level msg = []
      ∧ (∀ (env : Env) (c : Call), logger.formatter.isSome = true ∨ c.isRaw = true →
          syslogCalls (logger.invoke env c).events = [c.ownMethod]) := by
  refine ⟨?_, ?_, ?_, ?_, ?_, ?_, ?_, ?_, ?_, ?_, ?_, ?_⟩
  · simp [Logger.writeToSyslog, hsys]
  · simp [Logger.writeToSyslog, hsys]
  · simp [Logger.writeToSyslog, hsys]
  · simp [Logger.writeToSyslog, hsys]
  · simp [Logger.writeToSyslog, hsys]
  · simp [Logger.writeToSyslog, hsys]
  · simp [Logger.writeToSyslog, hsys]
  · simp [Logger.writeToSyslog, hsys]
  · by_cases h : 0 ≤ level ∧ level ≤ 7
    · exact Or.inl h
    · right
      unfold Logger.writeToSyslog
      rw [hsys]
      simp only
      split_ifs <;> first | rfl | (subst_vars; exact absurd (by decide) h)
  · unfold Logger.writeToSyslog
    rw [hsys]
    simp only
    split_ifs <;> exact ⟨_, rfl⟩
  · simp [Logger.writeToSyslog]
  · intro env c hc
    cases hfw : logger.fileWriter <;> cases hf : logger.formatter <;> cases c with
    | Printf format args =>
      simp [Logger.invoke, Logger.Printf, Logger.printLogf, Logger.writeToSyslog, hsys, hfw,
        syslogCalls, Fprintln, Call.ownMethod]
    | Println s =>
      simp [Logger.invoke, Logger.Println, Logger.printLog, Logger.writeToSyslog, hsys, hfw,
        syslogCalls, Fprintln, Call.ownMethod]
    | plain sev s =>
      cases sev <;> simp_all [Logger.invoke, Logger.Info, Logger.Debug, Logger.Warn,
        Logger.Alert, Logger.Notice, Logger.Error, Logger.Critical, Logger.Emergency,
        Logger.printLog, Logger.writeToSyslog, syslogCalls, Fprintln, Call.ownMethod,
        Call.isRaw]
    | templ sev format args =>
      cases sev <;> simp_all [Logger.invoke, Logger.Infof, Logger.Debugf, Logger.Warnf,
        Logger.Alertf, Logger.Noticef, Logger.Errorf, Logger.Criticalf, Logger.Emergancyf,
        Logger.printLogf, Logger.writeToSyslog, syslogCalls, Fprintln, Call.ownMethod,
        Call.isRaw]

/-- Witness for C3: a Logger with a remote sink, and the priority
`LOG_INFO | LOG_USER`, which is none of the eight severities. -/
theorem writeToSyslog_method_witness :
    bothSinks.syslogWriter = some ⟨14, "svc"⟩
      ∧ bothSinks.writeToSyslog LOG_ERR "boom" = [.syslog ⟨14, "svc"⟩ .Err "boom"]
      ∧ bothSinks.writeToSyslog (Int.lor LOG_INFO LOG_USER) "boom"
          = [.syslog ⟨14, "svc"⟩ .Info "boom"]
      ∧ syslogCalls (bothSinks.invoke env0 (.plain .Alert [.str "boom"])).events
          = [SyslogMethod.Alert] :=
  have h := writeToSyslog_method bothSinks ⟨14, "svc"⟩ rfl (Int.lor LOG_INFO LOG_USER) "boom"
  ⟨rfl, h.2.2.2.2.1, h.2.2.2.2.2.2.2.2.1.resolve_left (by decide),
    h.2.2.2.2.2.2.2.2.2.2.2 env0 (.plain .Alert [.str "boom"]) (Or.inl rfl)⟩

/-! ## C6: construction without sinks -/

/-- C6. For every application name and mask, `NewLogger` with an empty file
path and syslog disabled succeeds without any event (no stat, no open, no
syslog connection) and returns a Logger with no durable sink and no remote
sink; on that Logger every call of `printLog` and `printLogf` performs exactly
one event, the write of the line to the primary stream, and does not panic. -/
theorem NewLogger_no_sinks (os : OS) (appName : String) (flags : Priority) :
    NewLogger os appName "" false flags = (.ok ⟨none, none, some formatLog, false⟩, [])
      ∧ ∀ (env : Env) (applyFormating : Bool) (level : Priority) (osFile : File)
          (s : List Any) (format : String) (args : List Any),
        (∃ line, line = (if applyFormating then formatLog env.clock level (Sprint s) []
              else Sprint s)
          ∧ Logger.printLog ⟨none, none, some formatLog, false⟩ env applyFormating level
              osFile s
            = ⟨[.write osFile (line ++ "\n") (env.writeFails osFile (line ++ "\n"))], false⟩)
        ∧ (∃ line, line = (if applyFormating then formatLog env.clock level format args
              else Sprintf format args)
          ∧ Logger.printLogf ⟨none, none, some formatLog, false⟩ env applyFormating level
              osFile format args
            = ⟨[.write osFile (line ++ "\n") (env.writeFails osFile (line ++ "\n"))],
                false⟩) := by
  refine ⟨by simp [NewLogger, newLogger, Logger.openLogFile], ?_⟩
  intro env applyFormating level osFile s format args
  constructor
  · refine ⟨_, rfl, ?_⟩
    cases applyFormating <;> simp [Logger.printLog, Logger.writeToSyslog, Fprintln]
  · refine ⟨_, rfl, ?_⟩
    cases applyFormating <;> simp [Logger.printLogf, Logger.writeToSyslog, Fprintln]

/-! ## C7: construction with an unusable log directory -/

/-- C7. For every non-empty file path whose parent directory cannot be
examined (it does not exist, or the stat fails otherwise) or is not a
directory, `NewLogger` returns an error and no Logger, and no `os.OpenFile` is
performed; when the stat was performed and failed for a reason other than
"does not exist", the returned error wraps the stat error. -/
theorem NewLogger_bad_directory (os : OS) (appName logFilePath : String)
    (enableSyslog : Bool) (flags : Priority) (hpath : logFilePath ≠ "")
    (hdir : (∃ e, os.Stat (os.Dir logFilePath) = .error e)
      ∨ os.Stat (os.Dir logFilePath) = .ok ⟨false⟩) :
    (∃ err, (NewLogger os appName logFilePath enableSyslog flags).1 = .error err
        ∧ ∀ e, os.Stat (os.Dir logFilePath) = .error e → e.notExist = false →
            Event.stat (os.Dir logFilePath)
              ∈ (NewLogger os appName logFilePath enableSyslog flags).2 →
            Cause.os e ∈ err.wraps)
      ∧ ∀ name flag perm,
          Event.openFile name flag perm
            ∉ (NewLogger os appName logFilePath enableSyslog flags).2 := by
  obtain ⟨err, hcheck, hwrap⟩ := checkFileDir_bad os logFilePath hdir
  cases enableSyslog
  · have hres : NewLogger os appName logFilePath false flags
        = (.error err, [.stat (os.Dir logFilePath)]) := by
      simp [NewLogger, newLogger, openLogFile_bad _ os logFilePath hpath err _ hcheck]
    rw [hres]
    refine ⟨⟨err, rfl, fun e he hne _ => hwrap e he hne⟩, ?_⟩
    intro name flag perm
    simp
  · cases hdial : os.syslogNew (if flags = 0 then Int.lor LOG_INFO LOG_SYSLOG else flags)
        appName with
    | error e0 =>
      have hres : NewLogger os appName logFilePath true flags
          = (.error ⟨"new syslog setup error" ++ ": " ++ e0.msg, [.ErrSyslogConnFailed, .os e0]⟩,
              [.syslogNew (if flags = 0 then Int.lor LOG_INFO LOG_SYSLOG else flags)
                appName]) := by
        simp [NewLogger, newLogger, newSysLogger, newSyslog, hdial]
      rw [hres]
      refine ⟨⟨_, rfl, ?_⟩, ?_⟩
      · intro e _ _ hmem
        simp at hmem
      · intro name flag perm
        simp
    | ok w =>
      have hres : NewLogger os appName logFilePath true flags
          = (.error err,
              [.syslogNew (if flags = 0 then Int.lor LOG_INFO LOG_SYSLOG else flags) appName,
                .stat (os.Dir logFilePath)]) := by
        simp [NewLogger, newLogger, newSysLogger, newSyslog, hdial,
          openLogFile_bad _ os logFilePath hpath err _ hcheck]
      rw [hres]
      refine ⟨⟨err, rfl, fun e he hne _ => hwrap e he hne⟩, ?_⟩
      intro name flag perm
      simp

/-- Witness for C7: a parent directory that does not exist, and one whose
stat is refused. -/
theorem NewLogger_bad_directory_witness :
    ("/missing/app.log" ≠ ""
        ∧ os0.Stat (os0.Dir "/missing/app.log")
            = .error ⟨"stat /missing: no such file or directory", true⟩)
      ∧ ((∃ err, (NewLogger os0 "svc" "/missing/app.log" false 0).1 = .error err
          ∧ ∀ e, os0.Stat (os0.Dir "/missing/app.log") = .error e → e.notExist = false →
              Event.stat (os0.Dir "/missing/app.log")
                ∈ (NewLogger os0 "svc" "/missing/app.log" false 0).2 →
              Cause.os e ∈ err.wraps)
        ∧ ∀ name flag perm,
            Event.openFile name flag perm ∉ (NewLogger os0 "svc" "/missing/app.log" false 0).2)
      ∧ ((∃ err, (NewLogger os0 "svc" "/locked/app.log" true 0).1 = .error err
          ∧ ∀ e, os0.Stat (os0.Dir "/locked/app.log") = .error e → e.notExist = false →
              Event.stat (os0.Dir "/locked/app.log")
                ∈ (NewLogger os0 "svc" "/locked/app.log" true 0).2 →
              Cause.os e ∈ err.wraps)
        ∧ ∀ name flag perm,
            Event.openFile name flag perm ∉ (NewLogger os0 "svc" "/locked/app.log" true 0).2) :=
  ⟨⟨by decide, rfl⟩,
    NewLogger_bad_directory os0 "svc" "/missing/app.log" false 0 (by decide)
      (Or.inl ⟨⟨"stat /missing: no such file or directory", true⟩, rfl⟩),
    NewLogger_bad_directory os0 "svc" "/locked/app.log" true 0 (by decide)
      (Or.inl ⟨⟨"stat /locked: permission denied", false⟩, rfl⟩)⟩

/-! ## C8: the package-level functions forward to the installed Logger -/

/-- C8. After a successful `NewGlobalLogger` the package variable holds the
Logger built by `newLogger`, and every package-level function produces the
same outcome (same events in the same order, same texts, streams and remote
methods) as the method of the same name on that Logger. -/
theorem global_forwarding (os : OS) (global : Logger) (appName logFilePath : String)
    (enableSyslog : Bool) (flags : Priority) (installed : Logger) (evs : List Event)
    (h : NewGlobalLogger os global appName logFilePath enableSyslog flags
      = (none, installed, evs)) :
    newLogger os appName logFilePath enableSyslog flags = (.ok installed, evs)
      ∧ ∀ (env : Env) (c : Call), invoke installed env c = installed.invoke env c := by
  constructor
  · unfold NewGlobalLogger at h
    rcases hnew : newLogger os appName logFilePath enableSyslog flags with ⟨_ | l, evs1⟩
    · rw [hnew] at h
      simp at h
    · rw [hnew] at h
      simp at h
      rw [h.1, h.2]
  · intro env c
    cases c with
    | Printf format args => rfl
    | Println s => rfl
    | plain sev s => cases sev <;> rfl
    | templ sev format args => cases sev <;> rfl

/-- Witness for C8: a global Logger installed with a log file and syslog, then
the package-level `Error("boom")`. -/
theorem global_forwarding_witness :
    NewGlobalLogger os0 Logger.zero "svc" "/tmp/t.log" true 0
        = (none, ⟨some ⟨46, "svc"⟩, some (.named "/tmp/t.log"), some formatLog, false⟩,
            [.syslogNew 46 "svc", .stat "/tmp",
              .openFile "/tmp/t.log" [.O_WRONLY, .O_CREATE, .O_APPEND] 0o644])
      ∧ invoke ⟨some ⟨46, "svc"⟩, some (.named "/tmp/t.log"), some formatLog, false⟩ env0
            (.plain .Error [.str "boom"])
          = Logger.invoke ⟨some ⟨46, "svc"⟩, some (.named "/tmp/t.log"), some formatLog, false⟩
              env0 (.plain .Error [.str "boom"]) :=
  ⟨rfl, (global_forwarding os0 Logger.zero "svc" "/tmp/t.log" true 0
      ⟨some ⟨46, "svc"⟩, some (.named "/tmp/t.log"), some formatLog, false⟩
      [.syslogNew 46 "svc", .stat "/tmp",
        .openFile "/tmp/t.log" [.O_WRONLY, .O_CREATE, .O_APPEND] 0o644] rfl).2 env0
      (.plain .Error [.str "boom"])⟩

/-! ## C9: the raw forms -/

/-- C9, counterexample. `Println(1, 2)` writes `1 2` and a newline to stdout,
which is not the concatenation `12` of its values followed by a newline. -/
theorem Println_not_concatenation :
    (Logger.Println ⟨none, none, some formatLog, false⟩ env0 [.int 1, .int 2]).events
        = [.write .Stdout "1 2\n" false]
      ∧ concatValues [.int 1, .int 2] ++ "\n" = "12\n"
      ∧ "1 2\n" ≠ concatValues [.int 1, .int 2] ++ "\n" := by
  decide

/-- C9, amended. For every Logger (with or without a formatter), `Printf`
writes the `Sprintf` interpolation of the template plus a newline to the
durable sink when attached and to stdout, and passes the same text to the
remote `Info` method when attached; `Println` does the same with `Sprint` of
its values.  `Sprint` of two values is their texts with one space in between
exactly when neither is a string, and `Sprint` of strings is their
concatenation.  No decoration is added: `Printf("n=%d", 3)` on a Logger
without a durable sink first writes the line `n=3` to stdout. -/
theorem raw_forms_unformatted (logger : Logger) (env : Env) (format : String)
    (args s : List Any) (a b : Any) (ss : List String) :
    logger.Printf env format args =
        ⟨(logger.fileWriter.map fun f => Event.write f (Sprintf format args ++ "\n")
              (env.writeFails f (Sprintf format args ++ "\n"))).toList
            ++ [.write .Stdout (Sprintf format args ++ "\n")
              (env.writeFails .Stdout (Sprintf format args ++ "\n"))]
            ++ (logger.syslogWriter.map fun w =>
              Event.syslog w .Info (Sprintf format args)).toList, false⟩
      ∧ logger.Println env s =
        ⟨(logger.fileWriter.map fun f => Event.write f (Sprint s ++ "\n")
              (env.writeFails f (Sprint s ++ "\n"))).toList
            ++ [.write .Stdout (Sprint s ++ "\n") (env.writeFails .Stdout (Sprint s ++ "\n"))]
            ++ (logger.syslogWriter.map fun w => Event.syslog w .Info (Sprint s)).toList,
          false⟩
      ∧ Sprint [a, b] = a.text ++ (if a.isString || b.isString then "" else " ") ++ b.text
      ∧ Sprint (ss.map Any.str) = concatValues (ss.map Any.str)
      ∧ Sprintf "n=%d" [.int 3] = "n=3"
      ∧ (Logger.Printf ⟨logger.syslogWriter, none, logger.formatter, false⟩ env0 "n=%d"
            [.int 3]).events.head?
          = some (.write .Stdout "n=3\n" false) := by
  refine ⟨?_, ?_, ?_, ?_, by decide, ?_⟩
  · cases hfw : logger.fileWriter <;> cases hsw : logger.syslogWriter <;>
      simp [Logger.Printf, Logger.printLogf, Logger.writeToSyslog, Fprintln, hfw, hsw]
  · cases hfw : logger.fileWriter <;> cases hsw : logger.syslogWriter <;>
      simp [Logger.Println, Logger.printLog, Logger.writeToSyslog, Fprintln, hfw, hsw]
  · apply String.ext
    cases a <;> cases b <;> simp [Sprint, doPrint, Any.isString, Any.text]
  · simp [Sprint, concatValues, doPrint_strings, Any.text, Function.comp_def]
  · have h : Sprintf "n=%d" [.int 3] = "n=3" := by decide
    simp [Logger.Printf, Logger.printLogf, Logger.writeToSyslog, Fprintln, h, env0]

/-! ## C10: the formatter of constructed Loggers and of the zero value -/

/-- C10. A Logger returned by a successful `newLogger`, `NewLogger`,
`NewLoggerOrFatal`, or installed by `NewGlobalLogger` or
`NewGlobalLoggerOrFatal`, has `formatLog` as its formatter, and no entry point
panics on it.  On the zero-value Logger `Println` and `Printf` write one line
to stdout and do not panic, while every formatted call (variadic or template
form of any severity) panics before any event is performed. -/
theorem constructed_has_formatter (os : OS) (appName logFilePath : String)
    (enableSyslog : Bool) (flags : Priority) (global : Logger) (env : Env) (l : Logger)
    (evs : List Event) :
    (newLogger os appName logFilePath enableSyslog flags = (.ok l, evs)
        ∨ NewLogger os appName logFilePath enableSyslog flags = (.ok l, evs)
        ∨ NewLoggerOrFatal os env appName logFilePath enableSyslog flags = (.ret l, evs)
        ∨ NewGlobalLogger os global appName logFilePath enableSyslog flags = (none, l, evs)
        ∨ NewGlobalLoggerOrFatal os env appName logFilePath enableSyslog flags = (.ret l, evs) →
      l.formatter = some formatLog ∧ ∀ c, (l.invoke env c).panicked = false)
      ∧ (∀ s, Logger.zero.Println env s
          = ⟨[.write .Stdout (Sprint s ++ "\n") (env.writeFails .Stdout (Sprint s ++ "\n"))],
              false⟩)
      ∧ (∀ format args, Logger.zero.Printf env format args
          = ⟨[.write .Stdout (Sprintf format args ++ "\n")
                (env.writeFails .Stdout (Sprintf format args ++ "\n"))], false⟩)
      ∧ (∀ c : Call, c.isRaw = true ∨ Logger.zero.invoke env c = ⟨[], true⟩)
      ∧ (∀ c : Call, c.isRaw = true ∨ invoke Logger.zero env c = ⟨[], true⟩) := by
  refine ⟨?_, ?_, ?_, ?_, ?_⟩
  · intro h
    have hnew : ∃ evs1, newLogger os appName logFilePath enableSyslog flags = (.ok l, evs1) := by
      rcases h with h | h | h | h | h
      · exact ⟨evs, h⟩
      · unfold NewLogger at h
        rcases hn : newLogger os appName logFilePath enableSyslog flags with ⟨_ | l1, evs1⟩
        · rw [hn] at h
          simp at h
        · rw [hn] at h
          simp at h
          exact ⟨evs1, by rw [h.1]⟩
      · unfold NewLoggerOrFatal NewLogger at h
        rcases hn : newLogger os appName logFilePath enableSyslog flags with ⟨_ | l1, evs1⟩
        · rw [hn] at h
          simp at h
        · rw [hn] at h
          simp at h
          exact ⟨evs1, by rw [h.1]⟩
      · unfold NewGlobalLogger at h
        rcases hn : newLogger os appName logFilePath enableSyslog flags with ⟨_ | l1, evs1⟩
        · rw [hn] at h
          simp at h
        · rw [hn] at h
          simp at h
          exact ⟨evs1, by rw [h.1]⟩
      · unfold NewGlobalLoggerOrFatal at h
        rcases hn : newLogger os appName logFilePath enableSyslog flags with ⟨_ | l1, evs1⟩
        · rw [hn] at h
          simp at h
        · rw [hn] at h
          simp at h
          exact ⟨evs1, by rw [h.1]⟩
    obtain ⟨evs1, hnew⟩ := hnew
    have hf := newLogger_formatter os appName logFilePath enableSyslog flags l evs1 hnew
    exact ⟨hf, fun c => invoke_no_panic l formatLog hf env c⟩
  · intro s
    simp [Logger.Println, Logger.printLog, Logger.zero, Logger.writeToSyslog, Fprintln]
  · intro format args
    simp [Logger.Printf, Logger.printLogf, Logger.zero, Logger.writeToSyslog, Fprintln]
  · intro c
    cases c with
    | Printf format args => exact Or.inl rfl
    | Println s => exact Or.inl rfl
    | plain sev s => cases sev <;> exact Or.inr rfl
    | templ sev format args => cases sev <;> exact Or.inr rfl
  · intro c
    cases c with
    | Printf format args => exact Or.inl rfl
    | Println s => exact Or.inl rfl
    | plain sev s => cases sev <;> exact Or.inr rfl
    | templ sev format args => cases sev <;> exact Or.inr rfl

/-- Witness for C10: the Logger built with a log file and syslog has the
default formatter; on the zero value `Info("x")` panics with no event. -/
theorem constructed_has_formatter_witness :
    newLogger os0 "svc" "/tmp/t.log" true 0
        = (.ok ⟨some ⟨46, "svc"⟩, some (.named "/tmp/t.log"), some formatLog, false⟩,
            [.syslogNew 46 "svc", .stat "/tmp",
              .openFile "/tmp/t.log" [.O_WRONLY, .O_CREATE, .O_APPEND] 0o644])
      ∧ (Logger.mk (some ⟨46, "svc"⟩) (some (.named "/tmp/t.log")) (some formatLog)
          false).formatter = some formatLog
      ∧ Logger.zero.invoke env0 (.plain .Info [.str "x"]) = ⟨[], true⟩ :=
  have h := constructed_has_formatter os0 "svc" "/tmp/t.log" true 0 Logger.zero env0
    ⟨some ⟨46, "svc"⟩, some (.named "/tmp/t.log"), some formatLog, false⟩
    [.syslogNew 46 "svc", .stat "/tmp",
      .openFile "/tmp/t.log" [.O_WRONLY, .O_CREATE, .O_APPEND] 0o644]
  ⟨rfl, (h.1 (Or.inl rfl)).1,
    (h.2.2.2.1 (.plain .Info [.str "x"])).resolve_left (by decide)⟩

end GoLogger
